import Mathlib

/-!
ctrulib: console.h declarations and FS.c request marshalling.

A shallow embedding of `libctru/include/3ds/console.h` (escape-sequence
macros, `ConsoleFont`, `PrintConsole`, attribute flags, `debugDevice`) and of
`libctru/source/FS.c` (the seven FS service request functions), followed by
theorems about them.

Conventions
* `u8`, `u16`, `u32`, `u64` values are naturals, truncated with `% 2^w`
  wherever the C code converts or stores into a field of that width.
* `int` and `Result` (`s32`) values are integers, wrapped into the 32-bit
  two's complement range wherever the C code converts to that type.
* A nullable pointer to a scalar or struct is an `Option` holding the pointee
  (`none` is `NULL`).
-/

namespace Ctrulib

/-! ## console.h : escape-sequence macros (lines 26-35) -/

/-- The macro `CONSOLE_ESC(x)`, that is `"\x1b[" #x`: the two bytes ESC `[`
followed by the spelling of the argument. -/
def CONSOLE_ESC (x : String) : String := "\x1b[" ++ x

def CONSOLE_RESET : String := CONSOLE_ESC "0m"
def CONSOLE_BLACK : String := CONSOLE_ESC "30m"
def CONSOLE_RED : String := CONSOLE_ESC "31;1m"
def CONSOLE_GREEN : String := CONSOLE_ESC "32;1m"
def CONSOLE_YELLOW : String := CONSOLE_ESC "33;1m"
def CONSOLE_BLUE : String := CONSOLE_ESC "34;1m"
def CONSOLE_MAGENTA : String := CONSOLE_ESC "35;1m"
def CONSOLE_CYAN : String := CONSOLE_ESC "36;1m"
def CONSOLE_WHITE : String := CONSOLE_ESC "37;1m"

/-- The bytes of a string literal (all macros above are ASCII). -/
def bytes (s : String) : List Nat := s.toList.map Char.toNat

/-- The seven bold colour macros, `CONSOLE_RED` (31) to `CONSOLE_WHITE` (37),
in the order of the header. -/
def boldColourMacros : List String :=
  [CONSOLE_RED, CONSOLE_GREEN, CONSOLE_YELLOW, CONSOLE_BLUE, CONSOLE_MAGENTA,
   CONSOLE_CYAN, CONSOLE_WHITE]

/-- All nine macros defined through `CONSOLE_ESC`. -/
def colourMacros : List String := CONSOLE_RESET :: CONSOLE_BLACK :: boldColourMacros

/-- Reading of a control sequence, used to state well-formedness: the text must
be ESC `[`, then a body of decimal digits and `;`, then the final byte `m`. The
result is the body, or `none` when the text has another shape. -/
def sgrBody (s : String) : Option (List Char) :=
  match s.toList with
  | e :: b :: rest =>
    if e.toNat = 0x1b ∧ b = '[' ∧ rest.getLast? = some 'm'
        ∧ rest.dropLast.all (fun c => c.isDigit || c == ';') then
      some rest.dropLast
    else none
  | _ => none

/-- Value of a run of decimal digits. -/
def decimalValue (ds : List Char) : Nat :=
  ds.foldl (fun acc c => 10 * acc + (c.toNat - '0'.toNat)) 0

/-- The numeric parameters of a well-formed control sequence: the body split at
each `;`, every piece read as a decimal number. -/
def sgrParams (s : String) : Option (List Nat) :=
  (sgrBody s).map (fun body => (body.splitOn ';').map decimalValue)

/-! ## console.h : `ConsoleFont` (lines 40-46) -/

/-- Values of the C type `u16`. -/
abbrev U16 : Type := Fin 65536

/-- The struct `ConsoleFont`. `gfx` is the address of the font graphics. -/
structure ConsoleFont where
  gfx : Nat
  asciiOffset : U16
  numChars : U16
  deriving DecidableEq, Repr

/-! ## console.h : `PrintConsole` (lines 76-104) -/

/-- The struct `PrintConsole`, fields in declaration order. `frameBuffer` and
`PrintChar` are addresses (`0` is `NULL`). -/
structure PrintConsole where
  font : ConsoleFont
  frameBuffer : Nat
  cursorX : Int
  cursorY : Int
  prevCursorX : Int
  prevCursorY : Int
  consoleWidth : Int
  consoleHeight : Int
  windowX : Int
  windowY : Int
  windowWidth : Int
  windowHeight : Int
  tabSize : Int
  fg : U16
  bg : U16
  flags : Int
  PrintChar : Nat
  consoleInitialised : Bool
  deriving DecidableEq, Repr

/-- Conversion of an initialiser value to `u16`: reduction modulo `2^16`. -/
def toU16 (v : Int) : U16 := ⟨(v % 65536).toNat, by omega⟩

/-- Conversion of an initialiser value to the 32-bit `int`: two's complement
wrap-around into `-2^31 .. 2^31 - 1`. -/
def toInt32 (v : Int) : Int := (v + 2 ^ 31) % 2 ^ 32 - 2 ^ 31

/-- Conversion of an initialiser value to a 32-bit address: reduction modulo
`2^32`, so `0` is the null pointer and `-1` the all-ones address. -/
def toAddress (v : Int) : Nat := (v % 2 ^ 32).toNat

/-- Conversion of an initialiser value to `bool`: true unless the value is 0. -/
def toBool (v : Int) : Bool := v != 0

/-- Brace initialisation of the struct `PrintConsole` as declared in lines
76-104, for an initialiser whose first item is a braced initialiser for `font`
and whose remaining items are scalars: the `k`-th scalar initialises the `k`-th
member after `font` in declaration order (`frameBuffer` first), converted to
the type of that member, and members without an item are zero. -/
def PrintConsole.braceInit (font : ConsoleFont) (vals : List Int) : PrintConsole :=
  { font := font
    frameBuffer := toAddress (vals.getD 0 0)
    cursorX := toInt32 (vals.getD 1 0)
    cursorY := toInt32 (vals.getD 2 0)
    prevCursorX := toInt32 (vals.getD 3 0)
    prevCursorY := toInt32 (vals.getD 4 0)
    consoleWidth := toInt32 (vals.getD 5 0)
    consoleHeight := toInt32 (vals.getD 6 0)
    windowX := toInt32 (vals.getD 7 0)
    windowY := toInt32 (vals.getD 8 0)
    windowWidth := toInt32 (vals.getD 9 0)
    windowHeight := toInt32 (vals.getD 10 0)
    tabSize := toInt32 (vals.getD 11 0)
    fg := toU16 (vals.getD 12 0)
    bg := toU16 (vals.getD 13 0)
    flags := toInt32 (vals.getD 14 0)
    PrintChar := toAddress (vals.getD 15 0)
    consoleInitialised := toBool (vals.getD 16 0) }

/-- The scalar items of the initialiser written in the comment above the
struct under "Default values from consoleGetDefault()" (lines 61-72), in the
order written: `0,0` cursorX cursorY; `0,0` prevcursorX prevcursorY;
`40` console width; `30` console height; `0` window x; `0` window y;
`32` window width; `24` window height; `3` tab size; `0` font character offset;
`0` print callback; `false` console initialized. The list has no item for the
member `frameBuffer`. -/
def documentedDefaultScalars : List Int :=
  [0, 0, 0, 0, 40, 30, 0, 0, 32, 24, 3, 0, 0, 0]

/-- The documented `defaultConsole` (lines 53-73) read as written, its items
assigned from the first member after `font` on; the parameter is the address
`default_font_bin`. -/
def documentedDefaultConsole (default_font_bin : Nat) : PrintConsole :=
  PrintConsole.braceInit ⟨default_font_bin, 0, 128⟩ documentedDefaultScalars

def CONSOLE_COLOR_BOLD : Nat := 1 <<< 0
def CONSOLE_COLOR_FAINT : Nat := 1 <<< 1
def CONSOLE_ITALIC : Nat := 1 <<< 2
def CONSOLE_UNDERLINE : Nat := 1 <<< 3
def CONSOLE_BLINK_SLOW : Nat := 1 <<< 4
def CONSOLE_BLINK_FAST : Nat := 1 <<< 5
def CONSOLE_COLOR_REVERSE : Nat := 1 <<< 6
def CONSOLE_CONCEAL : Nat := 1 <<< 7
def CONSOLE_CROSSED_OUT : Nat := 1 <<< 8
def CONSOLE_FG_CUSTOM : Nat := 1 <<< 9
def CONSOLE_BG_CUSTOM : Nat := 1 <<< 10
def CONSOLE_COLOR_FG_BRIGHT : Nat := 1 <<< 11
def CONSOLE_COLOR_BG_BRIGHT : Nat := 1 <<< 12

/-- The thirteen attribute flags in the order of the header. -/
def consoleFlags : List Nat :=
  [CONSOLE_COLOR_BOLD, CONSOLE_COLOR_FAINT, CONSOLE_ITALIC, CONSOLE_UNDERLINE,
   CONSOLE_BLINK_SLOW, CONSOLE_BLINK_FAST, CONSOLE_COLOR_REVERSE, CONSOLE_CONCEAL,
   CONSOLE_CROSSED_OUT, CONSOLE_FG_CUSTOM, CONSOLE_BG_CUSTOM,
   CONSOLE_COLOR_FG_BRIGHT, CONSOLE_COLOR_BG_BRIGHT]

/-- Bitwise OR of a set of flag values. -/
def orAll (fs : Finset Nat) : Nat := fs.fold (fun a b => a ||| b) 0 id

/-! ## console.h : `debugDevice` (lines 120-126)

An enumerator without `=` is one more than its predecessor, the first is 0. -/

def debugDevice_NULL : Int := 0
def debugDevice_SVC : Int := debugDevice_NULL + 1
def debugDevice_CONSOLE : Int := debugDevice_SVC + 1
def debugDevice_3DMOO : Int := debugDevice_SVC

/-- The values of the four enumerators of `debugDevice`, in declaration order. -/
def debugDeviceValues : List Int :=
  [debugDevice_NULL, debugDevice_SVC, debugDevice_CONSOLE, debugDevice_3DMOO]

/-! ## console.h : glyph coverage of a `ConsoleFont`

The drawing routine is not part of the header; coverage and glyph index are
taken from the data-model invariant of the specification. -/

/-- Modelled from the spec: the console drawing routine that looks glyphs up is
absent, so coverage follows the invariant "a code point `c` is renderable iff
`asciiOffset ≤ c < asciiOffset + numChars`". The sum is the C expression on the
two `u16` fields after promotion to `int`. -/
def renderable (f : ConsoleFont) (c : Int) : Prop :=
  (f.asciiOffset.val : Int) ≤ c ∧ c < (f.asciiOffset.val : Int) + (f.numChars.val : Int)

instance (f : ConsoleFont) (c : Int) : Decidable (renderable f c) := by
  unfold renderable; infer_instance

/-- Modelled from the spec: "glyph index = `c − asciiOffset`". -/
def glyphIndex (f : ConsoleFont) (c : Int) : Int := c - (f.asciiOffset.val : Int)

/-- Largest value of a 32-bit `int`. -/
def INT_MAX : Int := 2 ^ 31 - 1

/-! ## console.h : console registry (`consoleSelect`, `consoleSetFont`)

Only the prototypes are in the header; the bodies are modelled from the
specification. A console is identified by its address. -/

/-- The process-wide console state: the consoles in memory (by address), the
address of the default console and the address of the current console. -/
structure Registry where
  consoles : Nat → PrintConsole
  defaultConsole : Nat
  currentConsole : Nat

/-- Modelled from the spec: the body of `consoleSelect` is absent. "`select(console)`:
sets the process-wide current pointer to `console` (or to the default when
`console` is null) and returns the previous current pointer." The argument is
`none` for `NULL`, else the address of a console. -/
def consoleSelect (r : Registry) (console : Option Nat) : Nat × Registry :=
  (r.currentConsole,
   { r with currentConsole := match console with
                              | none => r.defaultConsole
                              | some c => c })

/-- The console an operation acts on: "if NULL it will update the current
console" (lines 130 and 137). -/
def Registry.target (r : Registry) (console : Option Nat) : Nat :=
  match console with
  | none => r.currentConsole
  | some c => c

/-- Modelled from the spec: the body of `consoleSetFont` is absent.
"`setFont(console, font)`: replaces the console's font reference. Rejects
(no-op, previous font retained) when `font.numChars == 0`." -/
def consoleSetFont (r : Registry) (console : Option Nat) (font : ConsoleFont) : Registry :=
  if font.numChars = 0 then r
  else
    let a := r.target console
    { r with consoles := Function.update r.consoles a { r.consoles a with font := font } }

/-! ## FS.c : the thread command buffer and the kernel call -/

/-- What a function does to the outside, in program order: a store
`cmdbuf[index] = value`, or a call `svc_sendSyncRequest(handle)` together with
the command buffer the kernel receives and the code the call returns. -/
inductive Event where
  | store (index value : Nat)
  | send (handle : Nat) (request : Nat → Nat) (ret : Int)

/-- The calling thread: the content of its command buffer
(`getThreadCommandBuffer()`, an array of `u32`) and the events so far. -/
structure Thread where
  cmdbuf : Nat → Nat
  trace : List Event

/-- A thread with the given command buffer and no events yet. -/
def Thread.start (cmdbuf : Nat → Nat) : Thread := ⟨cmdbuf, []⟩

/-- Conversion to `u32`. -/
def toU32 (v : Nat) : Nat := v % 2 ^ 32

/-- Conversion of a `u32` word to `Result` (`s32`), two's complement. -/
def toS32 (w : Nat) : Int :=
  if w % 2 ^ 32 < 2 ^ 31 then (w % 2 ^ 32 : Nat) else ((w % 2 ^ 32 : Nat) : Int) - 2 ^ 32

/-- The statement `cmdbuf[i] = v;` on the `u32` array. -/
def Thread.store (t : Thread) (i v : Nat) : Thread :=
  { cmdbuf := Function.update t.cmdbuf i (toU32 v)
    trace := t.trace ++ [Event.store i (toU32 v)] }

/-- The kernel as seen by this file: given the handle and the command buffer it
answers with a result code and the command buffer holding the response. -/
abbrev Kernel : Type := Nat → (Nat → Nat) → Int × (Nat → Nat)

/-- The call `svc_sendSyncRequest(handle)`. -/
def svc_sendSyncRequest (k : Kernel) (t : Thread) (handle : Nat) : Int × Thread :=
  let reply := k handle t.cmdbuf
  (reply.1, { cmdbuf := reply.2, trace := t.trace ++ [Event.send handle t.cmdbuf reply.1] })

/-- What a request function leaves behind: the `Result` it returns, its output
parameter after the call, and the thread. -/
structure Outcome (α : Type) where
  result : Int
  out : α
  thread : Thread

/-- The struct `FS_path` as used by FS.c: `type`, `size`, `data` (an address). -/
structure FS_path where
  type : Nat
  size : Nat
  data : Nat
  deriving DecidableEq, Repr

/-- The struct `FS_archive` as used by FS.c. -/
structure FS_archive where
  id : Nat
  lowPath : FS_path
  handleLow : Nat
  handleHigh : Nat
  deriving DecidableEq, Repr

/-! ## FS.c : the request functions -/

/-- The function `FSUSER_Initialize` (lines 8-18). -/
def FSUSER_Initialize (k : Kernel) (handle : Nat) (t : Thread) : Outcome Unit :=
  let t := t.store 0 0x08010002
  let t := t.store 1 32
  let (ret, t) := svc_sendSyncRequest k t handle
  if ret ≠ 0 then ⟨ret, (), t⟩
  else ⟨toS32 (t.cmdbuf 1), (), t⟩

/-- The function `FSUSER_OpenFileDirectly` (lines 20-44). `out` is the pointee of
`Handle* out`, `none` when the pointer is null. -/
def FSUSER_OpenFileDirectly (k : Kernel) (handle : Nat) (out : Option Nat)
    (archive : FS_archive) (fileLowPath : FS_path) (openflags attributes : Nat)
    (t : Thread) : Outcome (Option Nat) :=
  let t := t.store 0 0x08030204
  let t := t.store 1 0
  let t := t.store 2 archive.id
  let t := t.store 3 archive.lowPath.type
  let t := t.store 4 archive.lowPath.size
  let t := t.store 5 fileLowPath.type
  let t := t.store 6 fileLowPath.size
  let t := t.store 7 openflags
  let t := t.store 8 attributes
  let t := t.store 9 (toU32 (toU32 archive.lowPath.size <<< 14) ||| 0x802)
  let t := t.store 10 archive.lowPath.data
  let t := t.store 11 (toU32 (toU32 fileLowPath.size <<< 14) ||| 2)
  let t := t.store 12 fileLowPath.data
  let (ret, t) := svc_sendSyncRequest k t handle
  if ret ≠ 0 then ⟨ret, out, t⟩
  else ⟨toS32 (t.cmdbuf 1), out.map (fun _ => t.cmdbuf 3), t⟩

/-- The function `FSUSER_OpenArchive` (lines 46-65). `archive` is the pointee of
`FS_archive* archive`, `none` when the pointer is null. -/
def FSUSER_OpenArchive (k : Kernel) (handle : Nat) (archive : Option FS_archive)
    (t : Thread) : Outcome (Option FS_archive) :=
  match archive with
  | none => ⟨-2, none, t⟩
  | some a =>
    let t := t.store 0 0x080C00C2
    let t := t.store 1 a.id
    let t := t.store 2 a.lowPath.type
    let t := t.store 3 a.lowPath.size
    let t := t.store 4 (toU32 (toU32 a.lowPath.size <<< 14) ||| 0x2)
    let t := t.store 5 a.lowPath.data
    let (ret, t) := svc_sendSyncRequest k t handle
    if ret ≠ 0 then ⟨ret, some a, t⟩
    else ⟨toS32 (t.cmdbuf 1),
          some { a with handleLow := t.cmdbuf 2, handleHigh := t.cmdbuf 3 }, t⟩

/-- The function `FSFILE_Close` (lines 67-77). -/
def FSFILE_Close (k : Kernel) (handle : Nat) (t : Thread) : Outcome Unit :=
  let t := t.store 0 0x08080000
  let (ret, t) := svc_sendSyncRequest k t handle
  if ret ≠ 0 then ⟨ret, (), t⟩
  else ⟨toS32 (t.cmdbuf 1), (), t⟩

/-- The function `FSFILE_Read` (lines 79-96). `offset` is a `u64`, `buffer` an address,
`bytesRead` the pointee of `u32 *bytesRead` or `none` for a null pointer. -/
def FSFILE_Read (k : Kernel) (handle : Nat) (bytesRead : Option Nat)
    (offset buffer size : Nat) (t : Thread) : Outcome (Option Nat) :=
  let t := t.store 0 0x080200C2
  let t := t.store 1 (toU32 offset)
  let t := t.store 2 (toU32 (offset >>> 32))
  let t := t.store 3 size
  let t := t.store 4 (toU32 (toU32 size <<< 4) ||| 12)
  let t := t.store 5 buffer
  let (ret, t) := svc_sendSyncRequest k t handle
  if ret ≠ 0 then ⟨ret, bytesRead, t⟩
  else ⟨toS32 (t.cmdbuf 1), bytesRead.map (fun _ => t.cmdbuf 2), t⟩

/-- The function `FSFILE_Write` (lines 100-118). -/
def FSFILE_Write (k : Kernel) (handle : Nat) (bytesWritten : Option Nat)
    (offset data size flushFlags : Nat) (t : Thread) : Outcome (Option Nat) :=
  let t := t.store 0 0x08030102
  let t := t.store 1 (toU32 offset)
  let t := t.store 2 (toU32 (offset >>> 32))
  let t := t.store 3 size
  let t := t.store 4 flushFlags
  let t := t.store 5 (toU32 (toU32 size <<< 4) ||| 10)
  let t := t.store 6 data
  let (ret, t) := svc_sendSyncRequest k t handle
  if ret ≠ 0 then ⟨ret, bytesWritten, t⟩
  else ⟨toS32 (t.cmdbuf 1), bytesWritten.map (fun _ => t.cmdbuf 2), t⟩

/-- The function `FSFILE_GetSize` (lines 120-132). The `u64` read through `(u64*)&cmdbuf[2]`
takes `cmdbuf[2]` as its low word and `cmdbuf[3]` as its high word (the target
is little-endian). -/
def FSFILE_GetSize (k : Kernel) (handle : Nat) (size : Option Nat) (t : Thread) :
    Outcome (Option Nat) :=
  let t := t.store 0 0x08040000
  let (ret, t) := svc_sendSyncRequest k t handle
  if ret ≠ 0 then ⟨ret, size, t⟩
  else ⟨toS32 (t.cmdbuf 1),
        size.map (fun _ => toU32 (t.cmdbuf 2) + 2 ^ 32 * toU32 (t.cmdbuf 3)), t⟩

/-! ## FS.c : reading a trace -/

/-- The command-buffer indices stored before the first request is sent. -/
def storedBeforeSend : List Event → List Nat
  | [] => []
  | Event.store i _ :: es => i :: storedBeforeSend es
  | Event.send _ _ _ :: _ => []

/-- The command buffer received by the kernel with the first request. -/
def firstRequest : List Event → Option (Nat → Nat)
  | [] => none
  | Event.store _ _ :: es => firstRequest es
  | Event.send _ req _ :: _ => some req

/-- The result codes of the `svc_sendSyncRequest` calls, in order. -/
def svcResults : List Event → List Int
  | [] => []
  | Event.store _ _ :: es => svcResults es
  | Event.send _ _ r :: es => r :: svcResults es

/-- Bits 6..11 of a header word: the number of normal parameters. -/
def normalParams (header : Nat) : Nat := (header >>> 6) &&& 0x3f

/-- Bits 0..5 of a header word: the number of translate parameters. -/
def translateParams (header : Nat) : Nat := header &&& 0x3f

/-- A trace is consistent with its header when a request is sent and the words
stored before it, besides the header `cmdbuf[0]`, are exactly
`cmdbuf[1] .. cmdbuf[n+t]`, with `n` and `t` read from the `cmdbuf[0]` sent. -/
def headerConsistent (tr : List Event) : Prop :=
  match firstRequest tr with
  | none => False
  | some req =>
    (storedBeforeSend tr).toFinset.erase 0
      = Finset.Icc 1 (normalParams (req 0) + translateParams (req 0))

instance (tr : List Event) : Decidable (headerConsistent tr) := by
  unfold headerConsistent; split <;> infer_instance


/-- Failure atomicity of one call with output parameter `out` before the call
and outcome `o`: if the kernel call returned a non-zero code `r`, the function
returns `r` and the output parameter is untouched; and the output parameter is
changed only when the kernel call returned 0, in which case the function
returns the response word `cmdbuf[1]`. -/
def failureAtomic {α : Type} (out : α) (o : Outcome α) : Prop :=
  (∀ r : Int, r ≠ 0 → svcResults o.thread.trace = [r] → o.result = r ∧ o.out = out) ∧
  (o.out ≠ out → svcResults o.thread.trace = [0] ∧ o.result = toS32 (o.thread.cmdbuf 1))

/-! ## Sample inputs -/

/-- A command buffer of zero words. -/
def zeroBuf : Nat → Nat := fun _ => 0

/-- A kernel that accepts every request and leaves the buffer as sent. -/
def okKernel : Kernel := fun _ cb => (0, cb)

/-- A kernel that fails every request with code `-5` after scribbling over the
first words of the buffer. -/
def failKernel : Kernel := fun _ _ => (-5, fun i => 1000 + i)

/-- A console with an 128-glyph font at address 4096 and a 40x30 grid. -/
def sampleConsole : PrintConsole :=
  { font := ⟨4096, 0, 128⟩, frameBuffer := 0, cursorX := 0, cursorY := 0,
    prevCursorX := 0, prevCursorY := 0, consoleWidth := 40, consoleHeight := 30,
    windowX := 0, windowY := 0, windowWidth := 40, windowHeight := 30, tabSize := 3,
    fg := 7, bg := 0, flags := 0, PrintChar := 0, consoleInitialised := true }

/-- A registry in which every address holds `sampleConsole`; console 1 is both
default and current. -/
def sampleRegistry : Registry := ⟨fun _ => sampleConsole, 1, 1⟩

/-! # Theorems -/

/-! ## Helper lemmas on bit masks -/

theorem testBit_orAll (s : Finset Nat) (hs : ∀ x ∈ s, ∃ j, x = 2 ^ j) (i : Nat) :
    (orAll s).testBit i = decide (2 ^ i ∈ s) := by
  induction s using Finset.induction_on with
  | empty => simp [orAll]
  | @insert a s ha ih =>
    have hs' : ∀ x ∈ s, ∃ j, x = 2 ^ j := fun x hx => hs x (Finset.mem_insert_of_mem hx)
    obtain ⟨j, rfl⟩ := hs a (Finset.mem_insert_self _ _)
    have ih' := ih hs'
    unfold orAll at ih' ⊢
    rw [Finset.fold_insert ha]
    simp only [id_eq, Nat.testBit_lor, ih', Nat.testBit_two_pow, Finset.mem_insert]
    by_cases hji : j = i
    · subst hji; simp
    · have : ¬ (2 ^ i = 2 ^ j) := fun h => hji (Nat.pow_right_injective (le_refl 2) h).symm
      simp [hji, this]
      exact ih'

theorem consoleFlags_eq : consoleFlags = (List.range 13).map (fun i => 2 ^ i) := by decide

theorem consoleFlags_pow (s : Finset Nat) (hs : s ⊆ consoleFlags.toFinset) :
    ∀ x ∈ s, ∃ j, j < 13 ∧ x = 2 ^ j := by
  intro x hx
  have hx' := hs hx
  rw [consoleFlags_eq] at hx'
  simp only [List.mem_toFinset, List.mem_map, List.mem_range] at hx'
  obtain ⟨j, hj, rfl⟩ := hx'
  exact ⟨j, hj, rfl⟩

theorem orAll_subset (s₁ s₂ : Finset Nat) (h₁ : s₁ ⊆ consoleFlags.toFinset)
    (h₂ : s₂ ⊆ consoleFlags.toFinset) (h : orAll s₁ = orAll s₂) : s₁ ⊆ s₂ := by
  intro x hx
  obtain ⟨j, -, rfl⟩ := consoleFlags_pow s₁ h₁ x hx
  have e₁ := testBit_orAll s₁ (fun y hy => (consoleFlags_pow s₁ h₁ y hy).imp fun _ h => h.2) j
  have e₂ := testBit_orAll s₂ (fun y hy => (consoleFlags_pow s₂ h₂ y hy).imp fun _ h => h.2) j
  rw [h, e₂] at e₁
  simpa [hx] using e₁

theorem orAll_lt (s : Finset Nat) (hs : s ⊆ consoleFlags.toFinset) : orAll s < 2 ^ 13 := by
  apply Nat.lt_pow_two_of_testBit
  intro i hi
  rw [testBit_orAll s (fun y hy => (consoleFlags_pow s hs y hy).imp fun _ h => h.2) i]
  simp only [decide_eq_false_iff_not]
  intro hmem
  obtain ⟨j, hj, e⟩ := consoleFlags_pow s hs _ hmem
  have := Nat.pow_right_injective (le_refl 2) e
  omega

/-! ## console.h -/

/-- The documented default values read as written: the first scalar goes to
`frameBuffer`, for which the list has no item, and every later value lands one
member early, 40 in `prevCursorY`, 30 in `consoleWidth`, 0 in `consoleHeight`,
32 in `windowY`, 24 in `windowWidth`, 3 in `windowHeight`, 0 in `tabSize`. -/
theorem documentedDefaultConsole_as_written (default_font_bin : Nat) :
    (documentedDefaultConsole default_font_bin).font = ⟨default_font_bin, 0, 128⟩ ∧
    (documentedDefaultConsole default_font_bin).frameBuffer = 0 ∧
    (documentedDefaultConsole default_font_bin).prevCursorY = 40 ∧
    (documentedDefaultConsole default_font_bin).consoleWidth = 30 ∧
    (documentedDefaultConsole default_font_bin).consoleHeight = 0 ∧
    (documentedDefaultConsole default_font_bin).windowX = 0 ∧
    (documentedDefaultConsole default_font_bin).windowY = 32 ∧
    (documentedDefaultConsole default_font_bin).windowWidth = 24 ∧
    (documentedDefaultConsole default_font_bin).windowHeight = 3 ∧
    (documentedDefaultConsole default_font_bin).tabSize = 0 := by
  refine ⟨rfl, ?_, ?_, ?_, ?_, ?_, ?_, ?_, ?_, ?_⟩ <;> rfl

/-- C2: every colour macro is a well-formed SGR control sequence. The macro for
colour `30+k`, `k` in 1..7, is the seven bytes ESC `[` `3` digit-k `;` `1` `m`;
`CONSOLE_RED` is ESC `[31;1m` with parameters 31 and 1; `CONSOLE_BLACK` is
ESC `[30m`; `CONSOLE_RESET` is ESC `[0m`; each of the nine macros is ESC `[`
followed by digits and `;` only and ended by `m`, and each of its numeric
parameters is 0, 1 or in 30..37. -/
theorem colour_macros_well_formed :
    boldColourMacros.map bytes
      = (List.range 7).map (fun i =>
          [0x1b, '['.toNat, '3'.toNat, '0'.toNat + (i + 1), ';'.toNat, '1'.toNat, 'm'.toNat]) ∧
    bytes CONSOLE_RED = [0x1b, '['.toNat, '3'.toNat, '1'.toNat, ';'.toNat, '1'.toNat, 'm'.toNat] ∧
    sgrParams CONSOLE_RED = some [31, 1] ∧
    bytes CONSOLE_BLACK = [0x1b, '['.toNat, '3'.toNat, '0'.toNat, 'm'.toNat] ∧
    bytes CONSOLE_RESET = [0x1b, '['.toNat, '0'.toNat, 'm'.toNat] ∧
    colourMacros.all (fun m => (sgrBody m).isSome) = true ∧
    colourMacros.all (fun m =>
      match sgrParams m with
      | some ps => ps.all (fun p => decide (p = 0 ∨ p = 1 ∨ (30 ≤ p ∧ p ≤ 37)))
      | none => false) = true := by
  refine ⟨?_, ?_, ?_, ?_, ?_, ?_, ?_⟩ <;> decide

/-- C5: the `debugDevice` enumeration has exactly three distinct values,
`debugDevice_NULL = 0`, `debugDevice_SVC = 1`, `debugDevice_CONSOLE = 2`, and
the fourth name `debugDevice_3DMOO` equals `debugDevice_SVC`. -/
theorem debugDevice_three_way :
    debugDevice_NULL = 0 ∧ debugDevice_SVC = 1 ∧ debugDevice_CONSOLE = 2 ∧
    debugDevice_3DMOO = debugDevice_SVC ∧
    debugDeviceValues.toFinset = {0, 1, 2} ∧
    debugDeviceValues.toFinset.card = 3 := by
  refine ⟨?_, ?_, ?_, ?_, ?_, ?_⟩ <;> decide

/-- C6: the thirteen attribute flags are pairwise distinct powers of two on
bits 0..12; the OR of a subset of them determines the subset and is below
`2^13`; and the flag of SGR attribute code `n`, for `n` in 1..9 (bold, faint,
italic, underline, slow blink, fast blink, reverse, conceal, crossed-out), is
`1 << (n-1)`. -/
theorem console_flags_proper_bitmask :
    consoleFlags = (List.range 13).map (fun i => 2 ^ i) ∧
    consoleFlags.length = 13 ∧
    consoleFlags.Nodup ∧
    (∀ s₁ s₂ : Finset Nat, s₁ ⊆ consoleFlags.toFinset → s₂ ⊆ consoleFlags.toFinset →
      orAll s₁ = orAll s₂ → s₁ = s₂) ∧
    (∀ s : Finset Nat, s ⊆ consoleFlags.toFinset → orAll s < 2 ^ 13) ∧
    [CONSOLE_COLOR_BOLD, CONSOLE_COLOR_FAINT, CONSOLE_ITALIC, CONSOLE_UNDERLINE,
     CONSOLE_BLINK_SLOW, CONSOLE_BLINK_FAST, CONSOLE_COLOR_REVERSE, CONSOLE_CONCEAL,
     CONSOLE_CROSSED_OUT]
      = [1, 2, 3, 4, 5, 6, 7, 8, 9].map (fun n => 1 <<< (n - 1)) ∧
    CONSOLE_COLOR_BOLD = 2 ^ 0 := by
  refine ⟨consoleFlags_eq, by decide, by decide, ?_, orAll_lt, by decide, by decide⟩
  intro s₁ s₂ h₁ h₂ h
  exact Finset.Subset.antisymm (orAll_subset s₁ s₂ h₁ h₂ h) (orAll_subset s₂ s₁ h₂ h₁ h.symm)

/-- Witness for C6 at the subsets bold+italic and reverse. -/
theorem console_flags_proper_bitmask_witness :
    orAll {CONSOLE_COLOR_BOLD, CONSOLE_ITALIC} < 2 ^ 13 ∧
    (orAll {CONSOLE_COLOR_BOLD, CONSOLE_ITALIC} = orAll {CONSOLE_ITALIC, CONSOLE_COLOR_BOLD} →
      ({CONSOLE_COLOR_BOLD, CONSOLE_ITALIC} : Finset Nat) = {CONSOLE_ITALIC, CONSOLE_COLOR_BOLD}) :=
  ⟨console_flags_proper_bitmask.2.2.2.2.1 {CONSOLE_COLOR_BOLD, CONSOLE_ITALIC} (by decide),
   console_flags_proper_bitmask.2.2.2.1 {CONSOLE_COLOR_BOLD, CONSOLE_ITALIC}
     {CONSOLE_ITALIC, CONSOLE_COLOR_BOLD} (by decide) (by decide)⟩

/-- C7: for every `ConsoleFont`, `asciiOffset + numChars` fits a 32-bit `int`;
for every renderable code point `c` the glyph index `c - asciiOffset` lies in
`0 ≤ index < numChars`; and a font with `numChars == 0` renders no code point. -/
theorem glyph_lookup_in_range (f : ConsoleFont) :
    (f.asciiOffset.val : Int) + (f.numChars.val : Int) ≤ INT_MAX ∧
    (∀ c : Int, renderable f c →
      0 ≤ glyphIndex f c ∧ glyphIndex f c < (f.numChars.val : Int)) ∧
    (f.numChars = 0 → ∀ c : Int, ¬ renderable f c) := by
  have h₁ := f.asciiOffset.isLt
  have h₂ := f.numChars.isLt
  refine ⟨?_, ?_, ?_⟩
  · unfold INT_MAX; omega
  · intro c hc
    unfold renderable at hc
    unfold glyphIndex
    omega
  · intro h0 c hc
    unfold renderable at hc
    rw [h0] at hc
    simp at hc
    omega

/-- Witness for C7: a font covering 32..127 renders `A` (65) from glyph 33, and
an empty font does not render code point 32. -/
theorem glyph_lookup_in_range_witness :
    (0 ≤ glyphIndex ⟨0, 32, 96⟩ 65 ∧ glyphIndex ⟨0, 32, 96⟩ 65 < 96) ∧
    ¬ renderable ⟨0, 32, 0⟩ 32 :=
  ⟨(glyph_lookup_in_range ⟨0, 32, 96⟩).2.1 65 (by decide),
   (glyph_lookup_in_range ⟨0, 32, 0⟩).2.2 rfl 32⟩

/-- C3: for all consoles `X` and `Y`, `consoleSelect(X)` followed by
`consoleSelect(Y)` makes the second call return `X` and leaves `Y` current. -/
theorem consoleSelect_returns_previous (r : Registry) (X Y : Nat) :
    (consoleSelect (consoleSelect r (some X)).2 (some Y)).1 = X ∧
    (consoleSelect (consoleSelect r (some X)).2 (some Y)).2.currentConsole = Y :=
  ⟨rfl, rfl⟩

/-- C4: `consoleSetFont` with a font of `numChars == 0` leaves the font of the
console (`gfx`, `asciiOffset`, `numChars`) as it was; with `numChars > 0` the
font of the console becomes the given font. The console is the one passed, or
the current one for a null argument. -/
theorem consoleSetFont_rejects_empty (r : Registry) (console : Option Nat)
    (font : ConsoleFont) :
    (font.numChars = 0 →
      ((consoleSetFont r console font).consoles (r.target console)).font
        = (r.consoles (r.target console)).font) ∧
    (0 < font.numChars →
      ((consoleSetFont r console font).consoles (r.target console)).font = font) := by
  constructor
  · intro h
    simp [consoleSetFont, h]
  · intro h
    have h' : font.numChars ≠ 0 := fun e => by rw [e] at h; exact absurd h (by decide)
    simp [consoleSetFont, h']

/-- Witness for C4: an empty font offered to the current console is rejected,
a 96-glyph font offered to console 2 is installed. -/
theorem consoleSetFont_rejects_empty_witness :
    ((consoleSetFont sampleRegistry none ⟨7, 32, 0⟩).consoles 1).font = ⟨4096, 0, 128⟩ ∧
    ((consoleSetFont sampleRegistry (some 2) ⟨7, 32, 96⟩).consoles 2).font = ⟨7, 32, 96⟩ :=
  ⟨(consoleSetFont_rejects_empty sampleRegistry none ⟨7, 32, 0⟩).1 rfl,
   (consoleSetFont_rejects_empty sampleRegistry (some 2) ⟨7, 32, 96⟩).2 (by decide)⟩

/-! ## FS.c -/

theorem failureAtomic_of_branch {α : Type} (out out' : α) (ret : Int) (t : Thread)
    (ht : svcResults t.trace = [ret]) :
    failureAtomic out
      (if ret ≠ 0 then (⟨ret, out, t⟩ : Outcome α) else ⟨toS32 (t.cmdbuf 1), out', t⟩) := by
  by_cases h : ret = 0
  · rw [if_neg (not_not.mpr h)]
    refine ⟨fun r hr hres => ?_, fun _ => ⟨?_, rfl⟩⟩
    · have e : [ret] = [r] := ht.symm.trans hres
      have e' : ret = r := List.head_eq_of_cons_eq e
      exact absurd (e'.symm.trans h) hr
    · show svcResults t.trace = [0]
      rw [ht, h]
  · rw [if_pos h]
    refine ⟨fun r _ hres => ⟨?_, rfl⟩, fun hne => absurd rfl hne⟩
    have e : [ret] = [r] := ht.symm.trans hres
    exact List.head_eq_of_cons_eq e

theorem svcResults_append_store (tr : List Event) (i v : Nat) :
    svcResults (tr ++ [Event.store i v]) = svcResults tr := by
  induction tr with
  | nil => rfl
  | cons e es ih => cases e <;> simp [svcResults, ih]

theorem svcResults_append_send (tr : List Event) (h : Nat) (req : Nat → Nat) (r : Int) :
    svcResults (tr ++ [Event.send h req r]) = svcResults tr ++ [r] := by
  induction tr with
  | nil => rfl
  | cons e es ih => cases e <;> simp [svcResults, ih]

/-- C8: failure paths are atomic. `FSUSER_OpenArchive` with a null archive
returns -2, stores nothing into the command buffer and sends no request; and
in `FSUSER_OpenFileDirectly`, `FSUSER_OpenArchive`, `FSFILE_Read`,
`FSFILE_Write` and `FSFILE_GetSize`, when `svc_sendSyncRequest` returns a
non-zero code `r` the function returns `r` and its output parameter is as
before, the output being written only on the path that returns `cmdbuf[1]`. -/
theorem fs_failure_paths_atomic (k : Kernel) (handle : Nat) (cmdbuf : Nat → Nat) :
    ((FSUSER_OpenArchive k handle none (Thread.start cmdbuf)).result = -2 ∧
     (FSUSER_OpenArchive k handle none (Thread.start cmdbuf)).out = none ∧
     (FSUSER_OpenArchive k handle none (Thread.start cmdbuf)).thread.cmdbuf = cmdbuf ∧
     (FSUSER_OpenArchive k handle none (Thread.start cmdbuf)).thread.trace = []) ∧
    (∀ (out : Option Nat) (archive : FS_archive) (fileLowPath : FS_path)
        (openflags attributes : Nat),
      failureAtomic out
        (FSUSER_OpenFileDirectly k handle out archive fileLowPath openflags attributes
          (Thread.start cmdbuf))) ∧
    (∀ a : FS_archive,
      failureAtomic (some a) (FSUSER_OpenArchive k handle (some a) (Thread.start cmdbuf))) ∧
    (∀ (bytesRead : Option Nat) (offset buffer size : Nat),
      failureAtomic bytesRead
        (FSFILE_Read k handle bytesRead offset buffer size (Thread.start cmdbuf))) ∧
    (∀ (bytesWritten : Option Nat) (offset data size flushFlags : Nat),
      failureAtomic bytesWritten
        (FSFILE_Write k handle bytesWritten offset data size flushFlags (Thread.start cmdbuf))) ∧
    (∀ size : Option Nat,
      failureAtomic size (FSFILE_GetSize k handle size (Thread.start cmdbuf))) := by
  refine ⟨⟨rfl, rfl, rfl, rfl⟩, ?_, ?_, ?_, ?_, ?_⟩
  · intro out archive fileLowPath openflags attributes
    unfold FSUSER_OpenFileDirectly
    apply failureAtomic_of_branch
    simp [svc_sendSyncRequest, Thread.store, Thread.start, svcResults_append_store,
      svcResults_append_send, svcResults]
  · intro a
    unfold FSUSER_OpenArchive
    apply failureAtomic_of_branch
    simp [svc_sendSyncRequest, Thread.store, Thread.start, svcResults_append_store,
      svcResults_append_send, svcResults]
  · intro bytesRead offset buffer size
    unfold FSFILE_Read
    apply failureAtomic_of_branch
    simp [svc_sendSyncRequest, Thread.store, Thread.start, svcResults_append_store,
      svcResults_append_send, svcResults]
  · intro bytesWritten offset data size flushFlags
    unfold FSFILE_Write
    apply failureAtomic_of_branch
    simp [svc_sendSyncRequest, Thread.store, Thread.start, svcResults_append_store,
      svcResults_append_send, svcResults]
  · intro size
    unfold FSFILE_GetSize
    apply failureAtomic_of_branch
    simp [svc_sendSyncRequest, Thread.store, Thread.start, svcResults_append_store,
      svcResults_append_send, svcResults]


theorem thread_branch {α : Type} (c : Prop) [Decidable c] (a a' : Int) (b b' : α)
    (t : Thread) : (if c then (⟨a, b, t⟩ : Outcome α) else ⟨a', b', t⟩).thread = t := by
  split <;> rfl

theorem headerConsistent_of (tr : List Event) (l : List Nat) (hdr : Nat)
    (hreq : (firstRequest tr).map (fun req => req 0) = some hdr)
    (hl : storedBeforeSend tr = l)
    (hc : l.toFinset.erase 0 = Finset.Icc 1 (normalParams hdr + translateParams hdr)) :
    headerConsistent tr := by
  unfold headerConsistent
  cases hfr : firstRequest tr with
  | none => rw [hfr] at hreq; simp at hreq
  | some req =>
    rw [hfr] at hreq
    simp only [Option.map_some', Option.some.injEq] at hreq
    simp only
    rw [hl, hreq]
    exact hc

theorem descriptor_word (size tag : Nat) (hs : size < 2 ^ 28) (ht : tag < 2 ^ 4) :
    toU32 (toU32 (toU32 size <<< 4) ||| tag) = 16 * size + tag := by
  have h1 : toU32 size = size := Nat.mod_eq_of_lt (by omega)
  have h2 : size <<< 4 = 2 ^ 4 * size := by rw [Nat.shiftLeft_eq, Nat.mul_comm]
  have h3 : toU32 (2 ^ 4 * size) = 2 ^ 4 * size := Nat.mod_eq_of_lt (by omega)
  rw [h1, h2, h3, ← Nat.mul_add_lt_is_or ht]
  exact Nat.mod_eq_of_lt (by omega)

theorem descriptor_fields (size tag : Nat) (ht : tag < 16) :
    (16 * size + tag) >>> 4 = size ∧ (16 * size + tag) &&& 15 = tag := by
  constructor
  · rw [Nat.shiftRight_eq_div_pow]
    omega
  · have := Nat.and_pow_two_sub_one_eq_mod (16 * size + tag) 4
    simp only [Nat.reducePow, Nat.add_one_sub_one] at this
    rw [this]
    omega

theorem exists_firstRequest (tr : List Event) (P : (Nat → Nat) → Prop)
    (h : ∀ req, firstRequest tr = some req → P req) (hs : (firstRequest tr).isSome = true) :
    ∃ req, firstRequest tr = some req ∧ P req := by
  cases hfr : firstRequest tr with
  | none => rw [hfr] at hs; simp at hs
  | some req => exact ⟨req, rfl, h req hfr⟩

theorem offset_words (offset : Nat) (hoff : offset < 2 ^ 64) :
    toU32 (toU32 offset) + 2 ^ 32 * toU32 (toU32 (offset >>> 32)) = offset := by
  unfold toU32
  rw [Nat.shiftRight_eq_div_pow]
  omega

/-- Witness for C8: a read whose kernel call fails with `-5` returns `-5` and
leaves `*bytesRead = 77` alone, although the kernel overwrote the buffer. -/
theorem fs_failure_paths_atomic_witness :
    (FSFILE_Read failKernel 3 (some 77) 5 6 7 (Thread.start zeroBuf)).result = -5 ∧
    (FSFILE_Read failKernel 3 (some 77) 5 6 7 (Thread.start zeroBuf)).out = some 77 :=
  ((fs_failure_paths_atomic failKernel 3 zeroBuf).2.2.2.1 (some 77) 5 6 7).1 (-5)
    (by decide) (by decide)

/-- C9 as stated fails for `FSUSER_Initialize`: its header `0x08010002`
announces two translate words, yet only `cmdbuf[1]` is stored before the
request is sent. -/
theorem FSUSER_Initialize_header_mismatch :
    ¬ headerConsistent (FSUSER_Initialize okKernel 1 (Thread.start zeroBuf)).thread.trace := by
  decide

/-- C9 (amended): `FSUSER_OpenFileDirectly`, `FSUSER_OpenArchive` (given an
archive), `FSFILE_Close`, `FSFILE_Read`, `FSFILE_Write` and `FSFILE_GetSize`
store exactly `cmdbuf[1..n+t]` before sending, `n` and `t` being the counts in
their header word; `FSUSER_Initialize`, whose header has `n = 0` and `t = 2`,
stores `cmdbuf[0]` and `cmdbuf[1]` only. -/
theorem fs_requests_match_header (k : Kernel) (handle : Nat) (cmdbuf : Nat → Nat) :
    (∀ (out : Option Nat) (archive : FS_archive) (fileLowPath : FS_path)
        (openflags attributes : Nat),
      headerConsistent
        (FSUSER_OpenFileDirectly k handle out archive fileLowPath openflags attributes
          (Thread.start cmdbuf)).thread.trace) ∧
    (∀ a : FS_archive,
      headerConsistent (FSUSER_OpenArchive k handle (some a) (Thread.start cmdbuf)).thread.trace) ∧
    headerConsistent (FSFILE_Close k handle (Thread.start cmdbuf)).thread.trace ∧
    (∀ (bytesRead : Option Nat) (offset buffer size : Nat),
      headerConsistent
        (FSFILE_Read k handle bytesRead offset buffer size (Thread.start cmdbuf)).thread.trace) ∧
    (∀ (bytesWritten : Option Nat) (offset data size flushFlags : Nat),
      headerConsistent
        (FSFILE_Write k handle bytesWritten offset data size flushFlags
          (Thread.start cmdbuf)).thread.trace) ∧
    (∀ size : Option Nat,
      headerConsistent (FSFILE_GetSize k handle size (Thread.start cmdbuf)).thread.trace) ∧
    (storedBeforeSend (FSUSER_Initialize k handle (Thread.start cmdbuf)).thread.trace = [0, 1] ∧
     (firstRequest (FSUSER_Initialize k handle (Thread.start cmdbuf)).thread.trace).map
        (fun req => (normalParams (req 0), translateParams (req 0), req 1)) = some (0, 2, 32)) := by
  refine ⟨?_, ?_, ?_, ?_, ?_, ?_, ?_, ?_⟩
  · intro out archive fileLowPath openflags attributes
    refine headerConsistent_of _ [0, 1, 2, 3, 4, 5, 6, 7, 8, 9, 10, 11, 12] 0x08030204
      ?_ ?_ (by decide)
    · simp [FSUSER_OpenFileDirectly, svc_sendSyncRequest, Thread.store, Thread.start,
        thread_branch, firstRequest, toU32]
    · simp [FSUSER_OpenFileDirectly, svc_sendSyncRequest, Thread.store, Thread.start,
        thread_branch, storedBeforeSend]
  · intro a
    refine headerConsistent_of _ [0, 1, 2, 3, 4, 5] 0x080C00C2 ?_ ?_ (by decide)
    · simp [FSUSER_OpenArchive, svc_sendSyncRequest, Thread.store, Thread.start, thread_branch,
        firstRequest, toU32]
    · simp [FSUSER_OpenArchive, svc_sendSyncRequest, Thread.store, Thread.start, thread_branch,
        storedBeforeSend]
  · show headerConsistent _
    refine headerConsistent_of _ [0] 0x08080000 ?_ ?_ (by decide)
    · simp [FSFILE_Close, svc_sendSyncRequest, Thread.store, Thread.start, thread_branch,
        firstRequest, toU32]
    · simp [FSFILE_Close, svc_sendSyncRequest, Thread.store, Thread.start, thread_branch,
        storedBeforeSend]
  · intro bytesRead offset buffer size
    refine headerConsistent_of _ [0, 1, 2, 3, 4, 5] 0x080200C2 ?_ ?_ (by decide)
    · simp [FSFILE_Read, svc_sendSyncRequest, Thread.store, Thread.start, thread_branch,
        firstRequest, toU32]
    · simp [FSFILE_Read, svc_sendSyncRequest, Thread.store, Thread.start, thread_branch,
        storedBeforeSend]
  · intro bytesWritten offset data size flushFlags
    refine headerConsistent_of _ [0, 1, 2, 3, 4, 5, 6] 0x08030102 ?_ ?_ (by decide)
    · simp [FSFILE_Write, svc_sendSyncRequest, Thread.store, Thread.start, thread_branch,
        firstRequest, toU32]
    · simp [FSFILE_Write, svc_sendSyncRequest, Thread.store, Thread.start, thread_branch,
        storedBeforeSend]
  · intro size
    refine headerConsistent_of _ [0] 0x08040000 ?_ ?_ (by decide)
    · simp [FSFILE_GetSize, svc_sendSyncRequest, Thread.store, Thread.start, thread_branch,
        firstRequest, toU32]
    · simp [FSFILE_GetSize, svc_sendSyncRequest, Thread.store, Thread.start, thread_branch,
        storedBeforeSend]
  · simp [FSUSER_Initialize, svc_sendSyncRequest, Thread.store, Thread.start, thread_branch,
      storedBeforeSend]
  · simp [FSUSER_Initialize, svc_sendSyncRequest, Thread.store, Thread.start, thread_branch,
      firstRequest, toU32, normalParams, translateParams]
    decide

/-- C10: `FSFILE_Read` and `FSFILE_Write` encode their arguments losslessly.
For a 64-bit `offset`, a `size` below `2^28` and 32-bit `flushFlags`, the words
sent satisfy `cmdbuf[1] + 2^32 * cmdbuf[2] = offset` and `cmdbuf[3] = size`;
the descriptor is `16*size + 12` in `cmdbuf[4]` for Read and `16*size + 10` in
`cmdbuf[5]` for Write (whose `cmdbuf[4]` is `flushFlags`); the descriptor
shifted right by 4 is `size` and its low four bits are the tag. -/
theorem read_write_encode_lossless (k : Kernel) (handle : Nat) (cmdbuf : Nat → Nat)
    (out : Option Nat) (offset buffer size flushFlags : Nat)
    (hoff : offset < 2 ^ 64) (hsize : size < 2 ^ 28) (hflush : flushFlags < 2 ^ 32) :
    (∃ req, firstRequest
        (FSFILE_Read k handle out offset buffer size (Thread.start cmdbuf)).thread.trace
          = some req ∧
      req 1 + 2 ^ 32 * req 2 = offset ∧ req 3 = size ∧
      req 4 = 16 * size + 12 ∧ req 4 >>> 4 = size ∧ req 4 &&& 15 = 12) ∧
    (∃ req, firstRequest
        (FSFILE_Write k handle out offset buffer size flushFlags
          (Thread.start cmdbuf)).thread.trace = some req ∧
      req 1 + 2 ^ 32 * req 2 = offset ∧ req 3 = size ∧ req 4 = flushFlags ∧
      req 5 = 16 * size + 10 ∧ req 5 >>> 4 = size ∧ req 5 &&& 15 = 10) := by
  have hd12 := descriptor_word size 12 hsize (by decide)
  have hd10 := descriptor_word size 10 hsize (by decide)
  have hf12 := descriptor_fields size 12 (by decide)
  have hf10 := descriptor_fields size 10 (by decide)
  have ho := offset_words offset hoff
  have hs : toU32 size = size := Nat.mod_eq_of_lt (by omega)
  have hfl : toU32 flushFlags = flushFlags := Nat.mod_eq_of_lt hflush
  rw [hs] at hd12 hd10
  have ho' : toU32 (toU32 offset) + 4294967296 * toU32 (toU32 (offset >>> 32)) = offset := ho
  constructor
  · apply exists_firstRequest
    · intro req hreq
      simp only [FSFILE_Read, svc_sendSyncRequest, Thread.store, Thread.start, thread_branch,
        firstRequest, List.nil_append, List.cons_append, Option.some.injEq] at hreq
      subst hreq
      simp [Function.update, hs]
      exact ⟨ho', hd12, by rw [hd12]; exact hf12.1, by rw [hd12]; exact hf12.2⟩
    · simp [FSFILE_Read, svc_sendSyncRequest, Thread.store, Thread.start, thread_branch,
        firstRequest]
  · apply exists_firstRequest
    · intro req hreq
      simp only [FSFILE_Write, svc_sendSyncRequest, Thread.store, Thread.start, thread_branch,
        firstRequest, List.nil_append, List.cons_append, Option.some.injEq] at hreq
      subst hreq
      simp [Function.update, hs, hfl]
      exact ⟨ho', hd10, by rw [hd10]; exact hf10.1, by rw [hd10]; exact hf10.2⟩
    · simp [FSFILE_Write, svc_sendSyncRequest, Thread.store, Thread.start, thread_branch,
        firstRequest]

/-- Witness for C10: offset `2^32 + 5`, size 16, flush flags 1. -/
theorem read_write_encode_lossless_witness :
    ∃ req, firstRequest
        (FSFILE_Read okKernel 3 none (2 ^ 32 + 5) 4096 16 (Thread.start zeroBuf)).thread.trace
          = some req ∧
      req 1 + 2 ^ 32 * req 2 = 2 ^ 32 + 5 ∧ req 3 = 16 ∧
      req 4 = 16 * 16 + 12 ∧ req 4 >>> 4 = 16 ∧ req 4 &&& 15 = 12 :=
  (read_write_encode_lossless okKernel 3 zeroBuf none (2 ^ 32 + 5) 4096 16 1
    (by decide) (by decide) (by decide)).1

end Ctrulib
